import Mathlib

/-!
Verification of the decision endpoint of the energy-saving rApp
(src/main.py).  The handler at src/main.py:81-163 is embedded as a pure
function over an explicit state (the idempotency flag directory, the
audit directory, the rolling log file, and the dry-run payload file),
with an explicit trace of effects.  The collaborator modules that are
not part of the provided source (src/decision.py, src/policy_adapter.py)
are modelled from the spec as abstract functions carried in an
environment record.
-/

namespace RApp

/-- Request body of the decision endpoint, src/main.py:29-39.
Floats are modelled as rationals; the handler never computes on them. -/
structure DecisionReq where
  minutes : Int := 1440
  t_low : Rat := 1/4
  t_high : Rat := 1/2
  dt_min : Int := 10
  cooldown : Int := 20
  targetRU : String := "RU_001"
  expire_minutes : Int := 30
  confidence : Rat := 4/5
  dry_run : Bool := false
  idempotency_key : Option String := none
deriving Repr, DecidableEq

/-- The decision dictionary read back from the decide step
(src/main.py:104).  The handler consumes it opaquely except for the
three .get lookups at src/main.py:150-152, so those three keys are
modelled as optional fields. -/
structure DecisionDict where
  action : Option String
  reason : Option String
  mode_after : Option String
deriving Repr, DecidableEq

/-- Modelled from the spec: the PolicyPayload produced by build_policy
(src/policy_adapter.py, not in the provided source); spec section 3:
target identifier, mode, effective window, expiry, confidence. -/
structure PolicyPayload where
  target_ru : String
  mode : String
  effective_from : Int
  expire_at : Int
  confidence : Rat
deriving Repr, DecidableEq

/-- Result of the push-or-dry-run step, src/main.py:116 and 124. -/
structure PushRes where
  sent : Bool
  dry_run : Bool := false
  saved_to : Option String := none
  error : Option String := none
deriving Repr, DecidableEq

/-- The dry-run push result built at src/main.py:116. -/
def dryRunPushRes : PushRes :=
  { sent := false, dry_run := true,
    saved_to := some "data/processed/policy_payload.json" }

/-- The request sub-object of an audit entry, src/main.py:133-139.
Note that it omits the minutes field of the request. -/
structure AuditReqParams where
  t_low : Rat
  t_high : Rat
  dt_min : Int
  cooldown : Int
  targetRU : String
  dry_run : Bool
  expire_minutes : Int
  confidence : Rat
  idempotency_key : Option String
deriving Repr, DecidableEq

/-- Projection of a request to the audit request sub-object,
src/main.py:133-139. -/
def DecisionReq.auditParams (r : DecisionReq) : AuditReqParams :=
  { t_low := r.t_low, t_high := r.t_high, dt_min := r.dt_min,
    cooldown := r.cooldown, targetRU := r.targetRU, dry_run := r.dry_run,
    expire_minutes := r.expire_minutes, confidence := r.confidence,
    idempotency_key := r.idempotency_key }

/-- A durable audit entry, src/main.py:130-143. -/
structure AuditEntry where
  audit_id : String
  ts : String
  request : AuditReqParams
  decision : DecisionDict
  policy_payload : PolicyPayload
  push_result : PushRes
deriving Repr, DecidableEq

/-- One appended line of logs/decision_log.jsonl, src/main.py:147-154. -/
structure LogLine where
  ts : String
  targetRU : String
  decision : Option String
  reason : Option String
  mode_after : Option String
  push_sent : Bool
deriving Repr, DecidableEq

/-- Modelled from the spec: local validation failures of the decision
engine (src/decision.py, not in the provided source); spec section 7. -/
inductive DecideError
  | invalidForecast
  | insufficientForecastHorizon
deriving Repr, DecidableEq

/-- Modelled from the spec: input validation failures of the policy
builder (src/policy_adapter.py, not in the provided source); spec
section 4.2. -/
inductive PolicyError
  | invalidTarget
  | invalidConfidence
deriving Repr, DecidableEq

/-- Errors that escape the handler to the caller.  A validation error
raised by a collaborator propagates uncaught (there is no try/except in
src/main.py:81-163); a failure of the durable audit write at
src/main.py:130 likewise propagates, modelled as the distinct
auditPersistenceError kind. -/
inductive HandlerError
  | decideFailure (e : DecideError)
  | policyFailure (e : PolicyError)
  | auditPersistenceError
deriving Repr, DecidableEq

/-- Observable side effects of one handler run, in program order. -/
inductive Effect
  | idemCreate (flag : String)
  | fetchRaw
  | runEtl
  | predict
  | decideCall
  | buildPolicyCall
  | persistPayloadLocal
  | externalPush
  | auditWrite (id : String)
  | logAppend
deriving Repr, DecidableEq

/-- The durable state shared between requests: the idempotency flag
directory (data/idempotency), the audit directory (data/audit) as an
association list keyed by audit_id with the newest entry first, the
rolling log file, and the dry-run payload inspection file
(data/processed/policy_payload.json). -/
structure St where
  idemFlags : List String
  audits : List (String × AuditEntry)
  logs : List LogLine
  processedPayload : Option PolicyPayload
deriving Repr, DecidableEq

/-- The empty initial state: no flags, no audit entries, no log lines. -/
def st0 : St := { idemFlags := [], audits := [], logs := [], processedPayload := none }

/-- Environment of one request: the hash used for flag file names
(src/main.py:86), the collaborator functions, the formatted invocation
timestamp (src/main.py:127), and whether the durable audit write at
src/main.py:130 fails.  The decide field is modelled from the spec
(section 4.1): src/decision.py is not in the provided source; it either
fails local validation or deterministically returns a decision
dictionary from the thresholds and windows.  The build_policy field is
modelled from the spec (section 4.2).  The post_policy field is
modelled from the spec (section 4.3): transport failures are absorbed
into the returned result rather than thrown. -/
structure Env where
  sha256hex : String → String
  decide : Rat → Rat → Int → Int → Except DecideError DecisionDict
  build_policy : DecisionDict → String → Int → Rat → Except PolicyError PolicyPayload
  post_policy : PolicyPayload → PushRes
  nowTs : String
  auditWriteFails : Bool

/-- The JSON response of the decision endpoint: either the duplicate
object of src/main.py:88 or the success object of src/main.py:158-163. -/
inductive Response
  | duplicate (idempotency_key : String)
  | ok (audit_id : String) (decision : DecisionDict)
       (policy_payload : PolicyPayload) (push_result : PushRes)
deriving Repr, DecidableEq

instance exceptDecEq {ε α : Type} [DecidableEq ε] [DecidableEq α] :
    DecidableEq (Except ε α) := fun x y =>
  match x, y with
  | .ok a, .ok b =>
    if h : a = b then isTrue (by rw [h]) else isFalse (by simp [h])
  | .error a, .error b =>
    if h : a = b then isTrue (by rw [h]) else isFalse (by simp [h])
  | .ok _, .error _ => isFalse (by simp)
  | .error _, .ok _ => isFalse (by simp)

/-- Result of one handler run: the state after it, the effect trace, and
either the JSON response or the propagated error. -/
structure Outcome where
  state : St
  effects : List Effect
  result : Except HandlerError Response
deriving Repr, DecidableEq

/-- The existence check on the idempotency flag, src/main.py:87. -/
def guardCheck (st : St) (flag : String) : Bool :=
  st.idemFlags.contains flag

/-- The creation of the idempotency flag file, src/main.py:89. -/
def guardSet (st : St) (flag : String) : St :=
  { st with idemFlags := flag :: st.idemFlags }

/-- The audit identifier built at src/main.py:128: formatted timestamp,
target RU and the fixed batch code a87. -/
def auditId (ts targetRU : String) : String :=
  ts ++ "-" ++ targetRU ++ "-a87"

/-- Steps 1 to 5 of the handler, src/main.py:91-163: pipeline, decide,
policy build, push or dry run, audit write, log append, response. -/
def pipeline (env : Env) (st : St) (req : DecisionReq) (eff0 : List Effect) : Outcome :=
  let eff1 := eff0 ++ [.fetchRaw, .runEtl, .predict, .decideCall]
  match env.decide req.t_low req.t_high req.dt_min req.cooldown with
  | .error e => ⟨st, eff1, .error (.decideFailure e)⟩
  | .ok decision_dict =>
    let eff2 := eff1 ++ [.buildPolicyCall]
    match env.build_policy decision_dict req.targetRU req.expire_minutes req.confidence with
    | .error e => ⟨st, eff2, .error (.policyFailure e)⟩
    | .ok payload =>
      match (if req.dry_run then
               ({ st with processedPayload := some payload },
                eff2 ++ [.persistPayloadLocal], dryRunPushRes)
             else
               (st, eff2 ++ [.externalPush], env.post_policy payload) :
             St × List Effect × PushRes) with
      | (st2, eff3, push_res) =>
        let ts := env.nowTs
        let audit_id := auditId ts req.targetRU
        if env.auditWriteFails then
          ⟨st2, eff3, .error .auditPersistenceError⟩
        else
          let entry : AuditEntry :=
            { audit_id := audit_id, ts := ts, request := req.auditParams,
              decision := decision_dict, policy_payload := payload,
              push_result := push_res }
          let st3 := { st2 with audits := (audit_id, entry) :: st2.audits }
          let log_line : LogLine :=
            { ts := ts, targetRU := req.targetRU,
              decision := decision_dict.action, reason := decision_dict.reason,
              mode_after := decision_dict.mode_after,
              push_sent := push_res.sent }
          let st4 := { st3 with logs := st3.logs ++ [log_line] }
          ⟨st4, eff3 ++ [.auditWrite audit_id, .logAppend],
           .ok (.ok audit_id decision_dict payload push_res)⟩

/-- The decision endpoint handler, src/main.py:81-163.  The guard at
src/main.py:84 uses Python truthiness: it runs only when
idempotency_key is a non-empty string. -/
def decision (env : Env) (st : St) (req : DecisionReq) : Outcome :=
  match req.idempotency_key with
  | none => pipeline env st req []
  | some k =>
    if k.isEmpty then
      pipeline env st req []
    else
      let flag := env.sha256hex k
      if guardCheck st flag then
        ⟨st, [], .ok (.duplicate k)⟩
      else
        pipeline env (guardSet st flag) req [.idemCreate flag]

/-- A concrete decision dictionary used in witnesses. -/
def sampleDict : DecisionDict :=
  { action := some "switch_to_eco", reason := some "low load",
    mode_after := some "eco" }

/-- A concrete policy payload used in witnesses. -/
def samplePayload : PolicyPayload :=
  { target_ru := "RU_001", mode := "eco", effective_from := 0,
    expire_at := 30, confidence := 4/5 }

/-- A concrete environment for witnesses: injective tag as the hash,
validation always succeeding, a live push that reports sent. -/
def sampleEnv : Env :=
  { sha256hex := fun s => s ++ "#h",
    decide := fun _ _ _ _ => .ok sampleDict,
    build_policy := fun _ _ _ _ => .ok samplePayload,
    post_policy := fun _ => { sent := true },
    nowTs := "20251012T000000Z",
    auditWriteFails := false }

/-- Recogniser for audit-write effects. -/
def Effect.isAuditWrite : Effect → Bool
  | .auditWrite _ => true
  | _ => false

/-- Recogniser for validation failures (decide or policy-builder), as
opposed to audit persistence failures. -/
def HandlerError.isValidation : HandlerError → Bool
  | .decideFailure _ => true
  | .policyFailure _ => true
  | .auditPersistenceError => false

/-- True when the guard of src/main.py:84-88 would short-circuit the
request: a non-empty key whose flag file already exists. -/
def isDuplicateHit (env : Env) (st : St) (req : DecisionReq) : Bool :=
  match req.idempotency_key with
  | some k => !k.isEmpty && guardCheck st (env.sha256hex k)
  | none => false

/-- Branch equation: a failing decide step stops the run with no state
change, src/main.py:100-104 raising before any write. -/
theorem pipeline_eq_decide_error (env : Env) (st : St) (req : DecisionReq)
    (eff0 : List Effect) (e : DecideError)
    (hd : env.decide req.t_low req.t_high req.dt_min req.cooldown = .error e) :
    pipeline env st req eff0 =
      ⟨st, eff0 ++ [.fetchRaw, .runEtl, .predict, .decideCall],
       .error (.decideFailure e)⟩ := by
  unfold pipeline
  simp only [hd]

/-- Branch equation: a failing policy build stops the run with no state
change, src/main.py:107-112 raising before any write. -/
theorem pipeline_eq_policy_error (env : Env) (st : St) (req : DecisionReq)
    (eff0 : List Effect) (dd : DecisionDict) (e : PolicyError)
    (hd : env.decide req.t_low req.t_high req.dt_min req.cooldown = .ok dd)
    (hp : env.build_policy dd req.targetRU req.expire_minutes req.confidence = .error e) :
    pipeline env st req eff0 =
      ⟨st, eff0 ++ [.fetchRaw, .runEtl, .predict, .decideCall, .buildPolicyCall],
       .error (.policyFailure e)⟩ := by
  unfold pipeline
  simp only [hd, hp, List.append_assoc]
  rfl

/-- Branch equation: a completed run pushes or dry-runs, writes one
audit entry and appends one log line, src/main.py:115-163. -/
theorem pipeline_eq_ok (env : Env) (st : St) (req : DecisionReq)
    (eff0 : List Effect) (dd : DecisionDict) (pl : PolicyPayload)
    (hd : env.decide req.t_low req.t_high req.dt_min req.cooldown = .ok dd)
    (hp : env.build_policy dd req.targetRU req.expire_minutes req.confidence = .ok pl)
    (hfail : env.auditWriteFails = false) :
    pipeline env st req eff0 =
      (let pr := if req.dry_run then dryRunPushRes else env.post_policy pl
       let id := auditId env.nowTs req.targetRU
       ⟨{ st with
          processedPayload := if req.dry_run then some pl else st.processedPayload,
          audits := (id, ⟨id, env.nowTs, req.auditParams, dd, pl, pr⟩) :: st.audits,
          logs := st.logs ++
            [⟨env.nowTs, req.targetRU, dd.action, dd.reason, dd.mode_after, pr.sent⟩] },
        eff0 ++ [.fetchRaw, .runEtl, .predict, .decideCall, .buildPolicyCall,
                 (if req.dry_run then Effect.persistPayloadLocal else Effect.externalPush),
                 .auditWrite id, .logAppend],
        .ok (.ok id dd pl pr)⟩) := by
  unfold pipeline
  rcases hdry : req.dry_run with _ | _ <;>
    simp [hd, hp, hfail, hdry, List.append_assoc]

/-- Branch equation: a failing audit write at src/main.py:130 escapes
after the push step but before the log append and the response. -/
theorem pipeline_eq_audit_fail (env : Env) (st : St) (req : DecisionReq)
    (eff0 : List Effect) (dd : DecisionDict) (pl : PolicyPayload)
    (hd : env.decide req.t_low req.t_high req.dt_min req.cooldown = .ok dd)
    (hp : env.build_policy dd req.targetRU req.expire_minutes req.confidence = .ok pl)
    (hfail : env.auditWriteFails = true) :
    pipeline env st req eff0 =
      ⟨(if req.dry_run then { st with processedPayload := some pl } else st),
       eff0 ++ [.fetchRaw, .runEtl, .predict, .decideCall, .buildPolicyCall,
                (if req.dry_run then Effect.persistPayloadLocal else Effect.externalPush)],
       .error .auditPersistenceError⟩ := by
  unfold pipeline
  rcases hdry : req.dry_run with _ | _ <;>
    simp [hd, hp, hfail, hdry, List.append_assoc]

/-- Inversion of a completed pipeline run: the response components, the
state change and the effect trace are fully determined. -/
theorem pipeline_ok_inv (env : Env) (st : St) (req : DecisionReq)
    (eff0 : List Effect) (id : String) (dd : DecisionDict)
    (pl : PolicyPayload) (pr : PushRes)
    (h : (pipeline env st req eff0).result = .ok (.ok id dd pl pr)) :
    id = auditId env.nowTs req.targetRU ∧
    env.decide req.t_low req.t_high req.dt_min req.cooldown = .ok dd ∧
    env.build_policy dd req.targetRU req.expire_minutes req.confidence = .ok pl ∧
    env.auditWriteFails = false ∧
    pr = (if req.dry_run then dryRunPushRes else env.post_policy pl) ∧
    (pipeline env st req eff0).state =
      { st with
        processedPayload := if req.dry_run then some pl else st.processedPayload,
        audits := (id, ⟨id, env.nowTs, req.auditParams, dd, pl, pr⟩) :: st.audits,
        logs := st.logs ++
          [⟨env.nowTs, req.targetRU, dd.action, dd.reason, dd.mode_after, pr.sent⟩] } ∧
    (pipeline env st req eff0).effects =
      eff0 ++ [.fetchRaw, .runEtl, .predict, .decideCall, .buildPolicyCall,
               (if req.dry_run then Effect.persistPayloadLocal else Effect.externalPush),
               .auditWrite id, .logAppend] := by
  rcases hd : env.decide req.t_low req.t_high req.dt_min req.cooldown with e | dd'
  · rw [pipeline_eq_decide_error env st req eff0 e hd] at h
    simp at h
  rcases hp : env.build_policy dd' req.targetRU req.expire_minutes req.confidence with e | pl'
  · rw [pipeline_eq_policy_error env st req eff0 dd' e hd hp] at h
    simp at h
  rcases hfail : env.auditWriteFails with _ | _
  · rw [pipeline_eq_ok env st req eff0 dd' pl' hd hp hfail] at h
    simp at h
    obtain ⟨hid, hdd, hpl, hpr⟩ := h
    subst hid
    subst hdd
    subst hpl
    subst hpr
    rw [pipeline_eq_ok env st req eff0 dd' pl' hd hp hfail]
    simp [hd, hp, hfail]
  · rw [pipeline_eq_audit_fail env st req eff0 dd' pl' hd hp hfail] at h
    simp at h

/-- The guard of src/main.py:84-89 in the non-duplicate case: the state
it leaves behind and the effects it emits before the pipeline runs. -/
def guardStep (env : Env) (st : St) (req : DecisionReq) : St × List Effect :=
  match req.idempotency_key with
  | none => (st, [])
  | some k =>
    if k.isEmpty then (st, [])
    else (guardSet st (env.sha256hex k), [.idemCreate (env.sha256hex k)])

/-- Branch equation: a duplicate hit returns the error object at
src/main.py:88 with no state change and no effects. -/
theorem decision_eq_dup (env : Env) (st : St) (req : DecisionReq) (k : String)
    (hk : req.idempotency_key = some k) (hne : k.isEmpty = false)
    (hseen : guardCheck st (env.sha256hex k) = true) :
    decision env st req = ⟨st, [], .ok (.duplicate k)⟩ := by
  unfold decision
  rw [hk]
  simp [hne, hseen]

/-- Branch equation: a non-duplicate request runs the guard step and
then the pipeline. -/
theorem decision_eq_pipeline (env : Env) (st : St) (req : DecisionReq)
    (hnodup : isDuplicateHit env st req = false) :
    decision env st req =
      pipeline env (guardStep env st req).1 req (guardStep env st req).2 := by
  unfold decision guardStep
  cases hk : req.idempotency_key with
  | none => rfl
  | some k =>
    by_cases he : k.isEmpty
    · simp [he]
    · have hseen : guardCheck st (env.sha256hex k) = false := by
        unfold isDuplicateHit at hnodup
        rw [hk] at hnodup
        simpa [he] using hnodup
      simp [he, hseen]

/-- Inversion: a duplicate hit means the key was present and the run
short-circuited. -/
theorem decision_dup_inv (env : Env) (st : St) (req : DecisionReq)
    (hdup : isDuplicateHit env st req = true) :
    ∃ k, req.idempotency_key = some k ∧
      decision env st req = ⟨st, [], .ok (.duplicate k)⟩ := by
  cases hk : req.idempotency_key with
  | none =>
    unfold isDuplicateHit at hdup
    rw [hk] at hdup
    simp at hdup
  | some k =>
    unfold isDuplicateHit at hdup
    rw [hk] at hdup
    simp at hdup
    obtain ⟨hne, hseen⟩ := hdup
    exact ⟨k, rfl, decision_eq_dup env st req k hk (by simpa using hne) hseen⟩

/-- The guard step never touches the audit directory. -/
theorem guardStep_audits (env : Env) (st : St) (req : DecisionReq) :
    (guardStep env st req).1.audits = st.audits := by
  unfold guardStep
  cases req.idempotency_key with
  | none => rfl
  | some k => by_cases he : k.isEmpty <;> simp [he, guardSet]

/-- The guard step never touches the log file. -/
theorem guardStep_logs (env : Env) (st : St) (req : DecisionReq) :
    (guardStep env st req).1.logs = st.logs := by
  unfold guardStep
  cases req.idempotency_key with
  | none => rfl
  | some k => by_cases he : k.isEmpty <;> simp [he, guardSet]

/-- The guard step never touches the dry-run payload file. -/
theorem guardStep_processed (env : Env) (st : St) (req : DecisionReq) :
    (guardStep env st req).1.processedPayload = st.processedPayload := by
  unfold guardStep
  cases req.idempotency_key with
  | none => rfl
  | some k => by_cases he : k.isEmpty <;> simp [he, guardSet]

/-- The guard step emits at most one flag-creation effect. -/
theorem guardStep_effects (env : Env) (st : St) (req : DecisionReq) :
    (guardStep env st req).2 = [] ∨
    ∃ f, (guardStep env st req).2 = [Effect.idemCreate f] := by
  unfold guardStep
  cases req.idempotency_key with
  | none => exact Or.inl rfl
  | some k =>
    by_cases he : k.isEmpty
    · simp [he]
    · simp [he]

/-- The pipeline never creates an idempotency flag: only the guard at
src/main.py:89 does. -/
theorem pipeline_idemFlags (env : Env) (st : St) (req : DecisionReq)
    (eff0 : List Effect) :
    (pipeline env st req eff0).state.idemFlags = st.idemFlags := by
  rcases hd : env.decide req.t_low req.t_high req.dt_min req.cooldown with e | dd
  · rw [pipeline_eq_decide_error env st req eff0 e hd]
  rcases hp : env.build_policy dd req.targetRU req.expire_minutes req.confidence with e | pl
  · rw [pipeline_eq_policy_error env st req eff0 dd e hd hp]
  rcases hfail : env.auditWriteFails with _ | _
  · rw [pipeline_eq_ok env st req eff0 dd pl hd hp hfail]
  · rw [pipeline_eq_audit_fail env st req eff0 dd pl hd hp hfail]
    cases req.dry_run <;> simp

/-- The pipeline never reports a duplicate: only the guard at
src/main.py:88 does. -/
theorem pipeline_not_dup (env : Env) (st : St) (req : DecisionReq)
    (eff0 : List Effect) (k : String) :
    (pipeline env st req eff0).result ≠ .ok (.duplicate k) := by
  rcases hd : env.decide req.t_low req.t_high req.dt_min req.cooldown with e | dd
  · rw [pipeline_eq_decide_error env st req eff0 e hd]
    simp
  rcases hp : env.build_policy dd req.targetRU req.expire_minutes req.confidence with e | pl
  · rw [pipeline_eq_policy_error env st req eff0 dd e hd hp]
    simp
  rcases hfail : env.auditWriteFails with _ | _
  · rw [pipeline_eq_ok env st req eff0 dd pl hd hp hfail]
    simp
  · rw [pipeline_eq_audit_fail env st req eff0 dd pl hd hp hfail]
    simp

/-- The pipeline emits no flag-creation effect beyond those it was
handed. -/
theorem pipeline_idemCreate_mem (env : Env) (st : St) (req : DecisionReq)
    (eff0 : List Effect) (f : String)
    (h : Effect.idemCreate f ∈ (pipeline env st req eff0).effects) :
    Effect.idemCreate f ∈ eff0 := by
  rcases hd : env.decide req.t_low req.t_high req.dt_min req.cooldown with e | dd
  · rw [pipeline_eq_decide_error env st req eff0 e hd] at h
    simpa using h
  rcases hp : env.build_policy dd req.targetRU req.expire_minutes req.confidence with e | pl
  · rw [pipeline_eq_policy_error env st req eff0 dd e hd hp] at h
    simpa using h
  rcases hfail : env.auditWriteFails with _ | _
  · rw [pipeline_eq_ok env st req eff0 dd pl hd hp hfail] at h
    rcases hdry : req.dry_run with _ | _ <;> simpa [hdry] using h
  · rw [pipeline_eq_audit_fail env st req eff0 dd pl hd hp hfail] at h
    rcases hdry : req.dry_run with _ | _ <;> simpa [hdry] using h

/-- With dry_run set, the pipeline never emits an external push. -/
theorem pipeline_dry_no_push (env : Env) (st : St) (req : DecisionReq)
    (eff0 : List Effect) (hdry : req.dry_run = true)
    (h0 : Effect.externalPush ∉ eff0) :
    Effect.externalPush ∉ (pipeline env st req eff0).effects := by
  rcases hd : env.decide req.t_low req.t_high req.dt_min req.cooldown with e | dd
  · rw [pipeline_eq_decide_error env st req eff0 e hd]
    simpa using h0
  rcases hp : env.build_policy dd req.targetRU req.expire_minutes req.confidence with e | pl
  · rw [pipeline_eq_policy_error env st req eff0 dd e hd hp]
    simpa using h0
  rcases hfail : env.auditWriteFails with _ | _
  · rw [pipeline_eq_ok env st req eff0 dd pl hd hp hfail]
    simpa [hdry] using h0
  · rw [pipeline_eq_audit_fail env st req eff0 dd pl hd hp hfail]
    simpa [hdry] using h0

/-- C1: a request whose idempotency_key was already used by a completed
request returns the duplicate error object carrying the key, with no
state change and no side effects at all: no forecast computation, no
policy build, no push, no audit entry, no log-line append
(src/main.py:84-88). -/
theorem claim_C1 (env : Env) (st : St) (req : DecisionReq) (k : String)
    (hk : req.idempotency_key = some k) (hne : k.isEmpty = false)
    (hseen : guardCheck st (env.sha256hex k) = true) :
    decision env st req = ⟨st, [], .ok (.duplicate k)⟩ :=
  decision_eq_dup env st req k hk hne hseen

/-- Witness for C1: replaying the key abc after it was recorded. -/
theorem claim_C1_witness :
    (({ idempotency_key := some "abc" } : DecisionReq).idempotency_key = some "abc") ∧
    ("abc".isEmpty = false) ∧
    (guardCheck (guardSet st0 (sampleEnv.sha256hex "abc")) (sampleEnv.sha256hex "abc") = true) ∧
    decision sampleEnv (guardSet st0 (sampleEnv.sha256hex "abc"))
        { idempotency_key := some "abc" } =
      ⟨guardSet st0 (sampleEnv.sha256hex "abc"), [], .ok (.duplicate "abc")⟩ :=
  ⟨rfl, rfl, by decide,
   claim_C1 sampleEnv (guardSet st0 (sampleEnv.sha256hex "abc"))
     { idempotency_key := some "abc" } "abc" rfl rfl (by decide)⟩

/-- C9: the handler never reads the minutes field of the request
(src/main.py:81-163 nowhere mentions req.minutes, and the audit request
sub-object at src/main.py:133-139 omits it), so two requests differing
only in minutes produce identical outcomes. -/
theorem claim_C9 (env : Env) (st : St) (req : DecisionReq) (m : Int) :
    decision env st { req with minutes := m } = decision env st req := by
  cases req
  rfl

/-- C10: an empty-string idempotency_key is falsy in Python, so the
guard at src/main.py:84 is skipped entirely: the run is the plain
pipeline, no flag is checked or created, and the result is never the
duplicate error. -/
theorem claim_C10 (env : Env) (st : St) (req : DecisionReq)
    (h : req.idempotency_key = some "") :
    decision env st req = pipeline env st req [] ∧
    (decision env st req).state.idemFlags = st.idemFlags ∧
    (∀ k, (decision env st req).result ≠ .ok (.duplicate k)) ∧
    (∀ f, Effect.idemCreate f ∉ (decision env st req).effects) := by
  have hEq : decision env st req = pipeline env st req [] := by
    unfold decision
    rw [h]
    have he : "".isEmpty = true := rfl
    simp [he]
  refine ⟨hEq, ?_, ?_, ?_⟩
  · rw [hEq]
    exact pipeline_idemFlags env st req []
  · intro k
    rw [hEq]
    exact pipeline_not_dup env st req [] k
  · intro f hmem
    rw [hEq] at hmem
    simpa using pipeline_idemCreate_mem env st req [] f hmem

/-- Witness for C10: two successive requests with the empty-string key
both execute the full pipeline; the second is not a duplicate. -/
theorem claim_C10_witness :
    (({ idempotency_key := some "", dry_run := true } : DecisionReq).idempotency_key = some "") ∧
    decision sampleEnv st0 { idempotency_key := some "", dry_run := true } =
      pipeline sampleEnv st0 { idempotency_key := some "", dry_run := true } [] ∧
    (decision sampleEnv st0 { idempotency_key := some "", dry_run := true }).state.idemFlags =
      st0.idemFlags ∧
    (∀ k, (decision sampleEnv st0 { idempotency_key := some "", dry_run := true }).result ≠
      .ok (.duplicate k)) :=
  have h := claim_C10 sampleEnv st0 { idempotency_key := some "", dry_run := true } rfl
  ⟨rfl, h.1, h.2.1, h.2.2.1⟩

/-- Recogniser for log-append effects. -/
def Effect.isLogAppend : Effect → Bool
  | .logAppend => true
  | _ => false

/-- The guard step performs no audit write. -/
theorem guardStep_countP_auditWrite (env : Env) (st : St) (req : DecisionReq) :
    ((guardStep env st req).2.countP Effect.isAuditWrite) = 0 := by
  rcases guardStep_effects env st req with h | ⟨f, h⟩ <;>
    simp [h, Effect.isAuditWrite]

/-- The guard step performs no log append. -/
theorem guardStep_countP_logAppend (env : Env) (st : St) (req : DecisionReq) :
    ((guardStep env st req).2.countP Effect.isLogAppend) = 0 := by
  rcases guardStep_effects env st req with h | ⟨f, h⟩ <;>
    simp [h, Effect.isLogAppend]

/-- The guard step performs no external push. -/
theorem guardStep_no_push (env : Env) (st : St) (req : DecisionReq) :
    Effect.externalPush ∉ (guardStep env st req).2 := by
  rcases guardStep_effects env st req with h | ⟨f, h⟩ <;> simp [h]

/-- Inversion of a completed run of the whole handler: the request was
not a duplicate hit, the response components are determined, the audit
directory and the log grow by exactly the recorded entry and line, and
the effect trace is the guard effects followed by the fixed pipeline
trace. -/
theorem decision_ok_inv (env : Env) (st : St) (req : DecisionReq)
    (id : String) (dd : DecisionDict) (pl : PolicyPayload) (pr : PushRes)
    (h : (decision env st req).result = .ok (.ok id dd pl pr)) :
    isDuplicateHit env st req = false ∧
    id = auditId env.nowTs req.targetRU ∧
    env.decide req.t_low req.t_high req.dt_min req.cooldown = .ok dd ∧
    env.build_policy dd req.targetRU req.expire_minutes req.confidence = .ok pl ∧
    env.auditWriteFails = false ∧
    pr = (if req.dry_run then dryRunPushRes else env.post_policy pl) ∧
    (decision env st req).state.audits =
      (id, ⟨id, env.nowTs, req.auditParams, dd, pl, pr⟩) :: st.audits ∧
    (decision env st req).state.logs =
      st.logs ++ [⟨env.nowTs, req.targetRU, dd.action, dd.reason, dd.mode_after, pr.sent⟩] ∧
    (decision env st req).state.processedPayload =
      (if req.dry_run then some pl else st.processedPayload) ∧
    (decision env st req).effects =
      (guardStep env st req).2 ++
        [.fetchRaw, .runEtl, .predict, .decideCall, .buildPolicyCall,
         (if req.dry_run then Effect.persistPayloadLocal else Effect.externalPush),
         .auditWrite id, .logAppend] := by
  rcases hdup : isDuplicateHit env st req with _ | _
  · have hEq := decision_eq_pipeline env st req hdup
    rw [hEq] at h
    obtain ⟨hid, hd, hp, hfail, hpr, hstate, heff⟩ :=
      pipeline_ok_inv env (guardStep env st req).1 req (guardStep env st req).2 id dd pl pr h
    rw [hEq]
    refine ⟨rfl, hid, hd, hp, hfail, hpr, ?_, ?_, ?_, ?_⟩
    · rw [hstate]
      simp [guardStep_audits]
    · rw [hstate]
      simp [guardStep_logs]
    · rw [hstate]
      simp [guardStep_processed]
    · rw [heff]
  · obtain ⟨k, hk, hEq⟩ := decision_dup_inv env st req hdup
    rw [hEq] at h
    simp at h

/-- C2: every non-duplicate request that completes performs exactly one
audit write and exactly one log append, whatever the dispatch outcome
(dry run, live push reporting sent, or live push reporting an absorbed
error), and the audit directory and log grow by exactly one entry
(src/main.py:126-156).  Dispatch is modelled from the spec as total:
post_policy absorbs transport failures into its result. -/
theorem claim_C2 (env : Env) (st : St) (req : DecisionReq)
    (id : String) (dd : DecisionDict) (pl : PolicyPayload) (pr : PushRes)
    (h : (decision env st req).result = .ok (.ok id dd pl pr)) :
    ((decision env st req).effects.countP Effect.isAuditWrite) = 1 ∧
    ((decision env st req).effects.countP Effect.isLogAppend) = 1 ∧
    (decision env st req).state.audits.length = st.audits.length + 1 ∧
    (decision env st req).state.logs.length = st.logs.length + 1 := by
  obtain ⟨-, -, -, -, -, -, haud, hlog, -, heff⟩ :=
    decision_ok_inv env st req id dd pl pr h
  refine ⟨?_, ?_, ?_, ?_⟩
  · rw [heff, List.countP_append, guardStep_countP_auditWrite]
    rcases hdry : req.dry_run with _ | _ <;>
      simp [hdry, List.countP_cons, Effect.isAuditWrite]
  · rw [heff, List.countP_append, guardStep_countP_logAppend]
    rcases hdry : req.dry_run with _ | _ <;>
      simp [hdry, List.countP_cons, Effect.isLogAppend]
  · rw [haud]
    rfl
  · rw [hlog]
    simp

/-- Witness for C2: a completed live request from the empty state. -/
theorem claim_C2_witness :
    (decision sampleEnv st0 {}).result =
      .ok (.ok "20251012T000000Z-RU_001-a87" sampleDict samplePayload { sent := true }) ∧
    ((decision sampleEnv st0 {}).effects.countP Effect.isAuditWrite) = 1 ∧
    ((decision sampleEnv st0 {}).effects.countP Effect.isLogAppend) = 1 ∧
    (decision sampleEnv st0 {}).state.audits.length = st0.audits.length + 1 ∧
    (decision sampleEnv st0 {}).state.logs.length = st0.logs.length + 1 :=
  ⟨rfl,
   claim_C2 sampleEnv st0 {} "20251012T000000Z-RU_001-a87" sampleDict samplePayload
     { sent := true } rfl⟩

/-- C3: with dry_run set, the external push path is never invoked on
any path through the handler; when such a request completes, its
push_result is the literal of src/main.py:116 (sent false, dry_run
true) and the payload is persisted to the local inspection file
(src/main.py:115-121). -/
theorem claim_C3 (env : Env) (st : St) (req : DecisionReq)
    (hdry : req.dry_run = true) :
    Effect.externalPush ∉ (decision env st req).effects ∧
    ∀ id dd pl pr, (decision env st req).result = .ok (.ok id dd pl pr) →
      pr = dryRunPushRes ∧
      (decision env st req).state.processedPayload = some pl := by
  constructor
  · rcases hdup : isDuplicateHit env st req with _ | _
    · rw [decision_eq_pipeline env st req hdup]
      exact pipeline_dry_no_push env (guardStep env st req).1 req
        (guardStep env st req).2 hdry (guardStep_no_push env st req)
    · obtain ⟨k, hk, hEq⟩ := decision_dup_inv env st req hdup
      rw [hEq]
      simp
  · intro id dd pl pr h
    obtain ⟨-, -, -, -, -, hpr, -, -, hproc, -⟩ :=
      decision_ok_inv env st req id dd pl pr h
    rw [hdry] at hpr hproc
    simp at hpr hproc
    exact ⟨hpr, hproc⟩

/-- Witness for C3: a completed dry-run request from the empty state. -/
theorem claim_C3_witness :
    (({ dry_run := true } : DecisionReq).dry_run = true) ∧
    Effect.externalPush ∉ (decision sampleEnv st0 { dry_run := true }).effects ∧
    ((decision sampleEnv st0 { dry_run := true }).result =
        .ok (.ok "20251012T000000Z-RU_001-a87" sampleDict samplePayload dryRunPushRes) →
      True) :=
  have h := claim_C3 sampleEnv st0 { dry_run := true } rfl
  ⟨rfl, h.1, fun _ => trivial⟩

/-- C6: a completed request's audit entry stores exactly the decision
and policy payload that the response returns: the entry written at
src/main.py:130-143 and the response at src/main.py:158-163 share the
same decision_dict and payload values. -/
theorem claim_C6 (env : Env) (st : St) (req : DecisionReq)
    (id : String) (dd : DecisionDict) (pl : PolicyPayload) (pr : PushRes)
    (h : (decision env st req).result = .ok (.ok id dd pl pr)) :
    ∃ e : AuditEntry, (decision env st req).state.audits.head? = some (id, e) ∧
      e.decision = dd ∧ e.policy_payload = pl := by
  obtain ⟨-, -, -, -, -, -, haud, -, -, -⟩ :=
    decision_ok_inv env st req id dd pl pr h
  refine ⟨⟨id, env.nowTs, req.auditParams, dd, pl, pr⟩, ?_, rfl, rfl⟩
  rw [haud]
  rfl

/-- Witness for C6: the completed live request from the empty state. -/
theorem claim_C6_witness :
    (decision sampleEnv st0 {}).result =
      .ok (.ok "20251012T000000Z-RU_001-a87" sampleDict samplePayload { sent := true }) ∧
    ∃ e : AuditEntry,
      (decision sampleEnv st0 {}).state.audits.head? =
        some ("20251012T000000Z-RU_001-a87", e) ∧
      e.decision = sampleDict ∧ e.policy_payload = samplePayload :=
  ⟨rfl,
   claim_C6 sampleEnv st0 {} "20251012T000000Z-RU_001-a87" sampleDict samplePayload
     { sent := true } rfl⟩

/-- The guard step never persists a dry-run payload. -/
theorem guardStep_no_persist (env : Env) (st : St) (req : DecisionReq) :
    Effect.persistPayloadLocal ∉ (guardStep env st req).2 := by
  rcases guardStep_effects env st req with h | ⟨f, h⟩ <;> simp [h]

/-- C4 amended: a validation failure (invalid forecast, insufficient
horizon, invalid target, invalid confidence) is surfaced to the caller
with no audit entry, no log line, no dispatch and no dry-run payload
write; however the idempotency flag, when a fresh non-empty key was
supplied, has already been created by the guard at src/main.py:89,
which runs before the validating pipeline. -/
theorem claim_C4 (env : Env) (st : St) (req : DecisionReq)
    (err : HandlerError)
    (h : (decision env st req).result = .error err)
    (hv : err.isValidation = true) :
    (decision env st req).state.audits = st.audits ∧
    (decision env st req).state.logs = st.logs ∧
    (decision env st req).state.processedPayload = st.processedPayload ∧
    Effect.externalPush ∉ (decision env st req).effects ∧
    Effect.persistPayloadLocal ∉ (decision env st req).effects ∧
    ((decision env st req).effects.countP Effect.isAuditWrite) = 0 ∧
    ((decision env st req).effects.countP Effect.isLogAppend) = 0 ∧
    (decision env st req).state.idemFlags = (guardStep env st req).1.idemFlags := by
  rcases hdup : isDuplicateHit env st req with _ | _
  · have hEq := decision_eq_pipeline env st req hdup
    rw [hEq] at h ⊢
    rcases hd : env.decide req.t_low req.t_high req.dt_min req.cooldown with e | dd
    · rw [pipeline_eq_decide_error env _ req _ e hd]
      refine ⟨guardStep_audits env st req, guardStep_logs env st req,
              guardStep_processed env st req, ?_, ?_, ?_, ?_, rfl⟩
      · simp [guardStep_no_push env st req]
      · simp [guardStep_no_persist env st req]
      · simp [List.countP_append, guardStep_countP_auditWrite, Effect.isAuditWrite]
      · simp [List.countP_append, guardStep_countP_logAppend, Effect.isLogAppend]
    rcases hp : env.build_policy dd req.targetRU req.expire_minutes req.confidence with e | pl
    · rw [pipeline_eq_policy_error env _ req _ dd e hd hp]
      refine ⟨guardStep_audits env st req, guardStep_logs env st req,
              guardStep_processed env st req, ?_, ?_, ?_, ?_, rfl⟩
      · simp [guardStep_no_push env st req]
      · simp [guardStep_no_persist env st req]
      · simp [List.countP_append, guardStep_countP_auditWrite, Effect.isAuditWrite]
      · simp [List.countP_append, guardStep_countP_logAppend, Effect.isLogAppend]
    rcases hfail : env.auditWriteFails with _ | _
    · rw [pipeline_eq_ok env _ req _ dd pl hd hp hfail] at h
      simp at h
    · rw [pipeline_eq_audit_fail env _ req _ dd pl hd hp hfail] at h
      simp at h
      rw [← h] at hv
      simp [HandlerError.isValidation] at hv
  · obtain ⟨k, hk, hEq⟩ := decision_dup_inv env st req hdup
    rw [hEq] at h
    simp at h

/-- Environment in which the decide step rejects the forecast. -/
def envDecideFails : Env :=
  { sampleEnv with decide := fun _ _ _ _ => .error .invalidForecast }

/-- Counterexample to C4 as stated: a request with a fresh
idempotency_key whose validation fails still creates the idempotency
record, because src/main.py:89 writes the flag before the pipeline at
src/main.py:92-104 can raise.  So state IS mutated on a validation
failure. -/
theorem claim_C4_counterexample :
    (decision envDecideFails st0 { idempotency_key := some "abc" }).result =
      .error (.decideFailure .invalidForecast) ∧
    st0.idemFlags = [] ∧
    (decision envDecideFails st0 { idempotency_key := some "abc" }).state.idemFlags =
      ["abc#h"] :=
  ⟨rfl, rfl, rfl⟩

/-- Witness for C4 (amended): the same failing request leaves audits,
logs and payload file untouched while the flag was created. -/
theorem claim_C4_witness :
    (decision envDecideFails st0 { idempotency_key := some "abc" }).result =
      .error (.decideFailure .invalidForecast) ∧
    (HandlerError.decideFailure .invalidForecast).isValidation = true ∧
    (decision envDecideFails st0 { idempotency_key := some "abc" }).state.audits =
      st0.audits ∧
    (decision envDecideFails st0 { idempotency_key := some "abc" }).state.logs =
      st0.logs ∧
    (decision envDecideFails st0 { idempotency_key := some "abc" }).state.idemFlags =
      (guardStep envDecideFails st0 { idempotency_key := some "abc" }).1.idemFlags :=
  have h := claim_C4 envDecideFails st0 { idempotency_key := some "abc" }
    (.decideFailure .invalidForecast) rfl rfl
  ⟨rfl, rfl, h.1, h.2.1, h.2.2.2.2.2.2.2⟩

/-- Two requests bearing the same idempotency key, interleaved so that
both execute the existence check of src/main.py:87 before either
executes the flag write of src/main.py:89.  The guard is a plain
read-then-write with no lock and no atomic create-if-absent, so this
interleaving is possible; each request then runs the rest of the
handler. -/
def racedPair (env : Env) (st : St) (req : DecisionReq) (k : String) :
    Outcome × Outcome :=
  let flag := env.sha256hex k
  let seen1 := guardCheck st flag
  let seen2 := guardCheck st flag
  let stA := if seen1 then st else guardSet st flag
  let stB := if seen2 then stA else guardSet stA flag
  let o1 := if seen1 then ⟨stB, [], .ok (.duplicate k)⟩
            else pipeline env stB req [.idemCreate flag]
  let o2 := if seen2 then ⟨o1.state, [], .ok (.duplicate k)⟩
            else pipeline env o1.state req [.idemCreate flag]
  (o1, o2)

/-- C5 fails on the code: under the check-check-set-set interleaving of
two concurrent requests sharing the key race, both observe the flag as
absent, both dispatch an external push and both write an audit entry —
the exists-then-write guard of src/main.py:87-89 is not atomic. -/
theorem claim_C5_race :
    (racedPair sampleEnv st0 { idempotency_key := some "race" } "race").1.result =
      .ok (.ok "20251012T000000Z-RU_001-a87" sampleDict samplePayload { sent := true }) ∧
    (racedPair sampleEnv st0 { idempotency_key := some "race" } "race").2.result =
      .ok (.ok "20251012T000000Z-RU_001-a87" sampleDict samplePayload { sent := true }) ∧
    (racedPair sampleEnv st0 { idempotency_key := some "race" } "race").2.state.audits.length = 2 ∧
    Effect.externalPush ∈
      (racedPair sampleEnv st0 { idempotency_key := some "race" } "race").1.effects ∧
    Effect.externalPush ∈
      (racedPair sampleEnv st0 { idempotency_key := some "race" } "race").2.effects := by
  refine ⟨rfl, rfl, rfl, ?_, ?_⟩ <;> decide

/-- Distinct timestamps of equal formatted length give distinct audit
identifiers: the timestamp is the leading component of the id built at
src/main.py:128. -/
theorem auditId_inj_ts (ts1 ts2 ru1 ru2 : String)
    (h : auditId ts1 ru1 = auditId ts2 ru2)
    (hlen : ts1.length = ts2.length) : ts1 = ts2 := by
  unfold auditId at h
  have hd : (ts1 ++ "-" ++ ru1 ++ "-a87").data = (ts2 ++ "-" ++ ru2 ++ "-a87").data := by
    rw [h]
  simp only [String.data_append, List.append_assoc] at hd
  have hl : ts1.data.length = ts2.data.length := hlen
  have hdata := (List.append_inj hd hl).1
  cases ts1
  cases ts2
  exact congrArg String.mk hdata

/-- C7: the audit_id is derived deterministically from the invocation
timestamp and the target identifier (src/main.py:127-128); under a
clock whose formatted second-resolution timestamps advance between the
two requests, two completed non-duplicate requests get distinct
audit_ids, and both entries remain retrievable afterwards — neither
write overwrites the other. -/
theorem claim_C7 (env1 env2 : Env) (st : St) (req1 req2 : DecisionReq)
    (id1 id2 : String) (dd1 dd2 : DecisionDict) (pl1 pl2 : PolicyPayload)
    (pr1 pr2 : PushRes)
    (h1 : (decision env1 st req1).result = .ok (.ok id1 dd1 pl1 pr1))
    (h2 : (decision env2 (decision env1 st req1).state req2).result =
      .ok (.ok id2 dd2 pl2 pr2))
    (hts : env1.nowTs ≠ env2.nowTs)
    (hlen : env1.nowTs.length = env2.nowTs.length) :
    id1 = auditId env1.nowTs req1.targetRU ∧
    id2 = auditId env2.nowTs req2.targetRU ∧
    id1 ≠ id2 ∧
    (decision env2 (decision env1 st req1).state req2).state.audits.lookup id2 =
      some ⟨id2, env2.nowTs, req2.auditParams, dd2, pl2, pr2⟩ ∧
    (decision env2 (decision env1 st req1).state req2).state.audits.lookup id1 =
      some ⟨id1, env1.nowTs, req1.auditParams, dd1, pl1, pr1⟩ := by
  obtain ⟨-, hid1, -, -, -, -, haud1, -, -, -⟩ :=
    decision_ok_inv env1 st req1 id1 dd1 pl1 pr1 h1
  obtain ⟨-, hid2, -, -, -, -, haud2, -, -, -⟩ :=
    decision_ok_inv env2 (decision env1 st req1).state req2 id2 dd2 pl2 pr2 h2
  have hne : id1 ≠ id2 := by
    rw [hid1, hid2]
    intro hcontra
    exact hts (auditId_inj_ts env1.nowTs env2.nowTs req1.targetRU req2.targetRU
      hcontra hlen)
  refine ⟨hid1, hid2, hne, ?_, ?_⟩
  · rw [haud2]
    simp [List.lookup]
  · rw [haud2, haud1]
    have hbeq : (id1 == id2) = false := beq_eq_false_iff_ne.mpr hne
    simp [List.lookup, hbeq]

/-- Second-request environment for the C7 witness: the clock advanced
by one second. -/
def envLater : Env := { sampleEnv with nowTs := "20251012T000001Z" }

/-- Witness for C7: two completed requests one second apart. -/
theorem claim_C7_witness :
    (decision sampleEnv st0 {}).result =
      .ok (.ok "20251012T000000Z-RU_001-a87" sampleDict samplePayload { sent := true }) ∧
    (decision envLater (decision sampleEnv st0 {}).state {}).result =
      .ok (.ok "20251012T000001Z-RU_001-a87" sampleDict samplePayload { sent := true }) ∧
    sampleEnv.nowTs ≠ envLater.nowTs ∧
    ("20251012T000000Z-RU_001-a87" : String) ≠ "20251012T000001Z-RU_001-a87" ∧
    (decision envLater (decision sampleEnv st0 {}).state {}).state.audits.lookup
      "20251012T000000Z-RU_001-a87" =
      some ⟨"20251012T000000Z-RU_001-a87", sampleEnv.nowTs,
            ({} : DecisionReq).auditParams, sampleDict, samplePayload, { sent := true }⟩ :=
  have h := claim_C7 sampleEnv envLater st0 {} {}
    "20251012T000000Z-RU_001-a87" "20251012T000001Z-RU_001-a87"
    sampleDict sampleDict samplePayload samplePayload { sent := true } { sent := true }
    rfl rfl (by decide) rfl
  ⟨rfl, rfl, by decide, h.2.2.1, h.2.2.2.2⟩

/-- C8: when the durable audit write at src/main.py:130 fails on an
otherwise completed request, the failure escapes to the caller as the
audit-persistence error kind — which is not a validation error and is
disjoint from dispatch failures, since those are absorbed into the
push result and never raised — and is never swallowed into a success
response.  This holds whatever the push outcome, including a push that
reported sent. -/
theorem claim_C8 (env : Env) (st : St) (req : DecisionReq)
    (dd : DecisionDict) (pl : PolicyPayload)
    (hfail : env.auditWriteFails = true)
    (hdec : env.decide req.t_low req.t_high req.dt_min req.cooldown = .ok dd)
    (hpol : env.build_policy dd req.targetRU req.expire_minutes req.confidence = .ok pl)
    (hnodup : isDuplicateHit env st req = false) :
    (decision env st req).result = .error .auditPersistenceError ∧
    HandlerError.auditPersistenceError.isValidation = false := by
  constructor
  · rw [decision_eq_pipeline env st req hnodup,
        pipeline_eq_audit_fail env (guardStep env st req).1 req
          (guardStep env st req).2 dd pl hdec hpol hfail]
  · rfl

/-- Environment in which the audit write fails while the push
succeeds. -/
def envAuditFails : Env := { sampleEnv with auditWriteFails := true }

/-- Witness for C8: the audit write fails on a live request whose push
succeeded; the caller sees the audit-persistence error. -/
theorem claim_C8_witness :
    envAuditFails.auditWriteFails = true ∧
    envAuditFails.decide ({} : DecisionReq).t_low ({} : DecisionReq).t_high
      ({} : DecisionReq).dt_min ({} : DecisionReq).cooldown = .ok sampleDict ∧
    envAuditFails.build_policy sampleDict ({} : DecisionReq).targetRU
      ({} : DecisionReq).expire_minutes ({} : DecisionReq).confidence = .ok samplePayload ∧
    isDuplicateHit envAuditFails st0 {} = false ∧
    (decision envAuditFails st0 {}).result = .error .auditPersistenceError :=
  ⟨rfl, rfl, rfl, rfl,
   (claim_C8 envAuditFails st0 {} sampleDict samplePayload rfl rfl rfl rfl).1⟩

end RApp

